import Mathlib

/-!
Shallow embedding of `src/testingv2.py` (`extract_invoice_data` and its
sheet-selection logic), together with theorems settling the frozen claims
about the Field Locator Engine.

Modelling conventions:
* Python `str` values are Lean `String`s; the grid is a `List (List String)`
  (cells already rendered to text, as after `df.astype(str)`).
* Python string operations (`strip`, `upper`, `in`, `replace`, `split`,
  `startswith`, `len`) are modelled on the character list, restricted to
  ASCII behaviour (the keywords and labels involved are all ASCII).
* Python `float(s)` is modelled exactly on strings: the accepted grammar
  (optional whitespace, sign, `inf`/`infinity`/`nan`, digit parts with
  underscores, decimal point, exponent) with the value kept as an exact
  rational, except that magnitudes at or beyond the binary64 overflow
  threshold `2^1024 - 2^970` become infinities, as CPython's `float` does.
* `re.match` is a prefix match: `[\d,]+\.?\d*` is truthy exactly when the
  first character is a digit or a comma; `\d{4}-\d{2}-\d{2}` is truthy
  exactly when the string starts with four digits, a hyphen, two digits,
  a hyphen, two digits.
-/

namespace InvoiceExtract

/-- Characters stripped by Python `str.strip()` (ASCII whitespace). -/
def isPySpace (c : Char) : Bool :=
  c = ' ' || c = '\t' || c = '\n' || c = '\r' || c = '\x0b' || c = '\x0c'

/-- Python `str.strip()`: remove leading and trailing whitespace. -/
def pyStrip (s : String) : String :=
  String.mk (((s.data.dropWhile isPySpace).reverse.dropWhile isPySpace).reverse)

/-- Python `str.upper()` (ASCII letters; all keywords in the source are ASCII). -/
def pyUpper (s : String) : String :=
  String.mk (s.data.map Char.toUpper)

/-- Does the list start with the given pattern? -/
def startsWithList : List Char → List Char → Bool
  | [], _ => true
  | _ :: _, [] => false
  | p :: ps, c :: cs => p = c && startsWithList ps cs

/-- Python `sub in s` on character lists: `sub` occurs contiguously in `l`. -/
def listContains : List Char → List Char → Bool
  | l, sub =>
    startsWithList sub l ||
      match l with
      | [] => false
      | _ :: t => listContains t sub

/-- Python `sub in s` for strings. -/
def strContains (s sub : String) : Bool :=
  listContains s.data sub.data

/-- Python `s.startswith(p)`. -/
def pyStartsWith (s p : String) : Bool :=
  startsWithList p.data s.data

/-- Worker for `replaceAll`; the fuel argument (instantiated with the
list's length, which bounds the number of steps) keeps the recursion
structural so the kernel can evaluate it. -/
def replaceAllAux (pat rep : List Char) : Nat → List Char → List Char
  | _, [] => []
  | 0, l => l
  | fuel + 1, c :: t =>
    if pat ≠ [] && startsWithList pat (c :: t) then
      rep ++ replaceAllAux pat rep fuel (t.drop (pat.length - 1))
    else
      c :: replaceAllAux pat rep fuel t

/-- Replace every (leftmost, non-overlapping) occurrence of a non-empty
pattern, as Python `str.replace`. -/
def replaceAll (pat rep l : List Char) : List Char :=
  replaceAllAux pat rep l.length l

/-- Python `s.replace(pat, rep)` for strings (non-empty pattern). -/
def pyReplace (s pat rep : String) : String :=
  String.mk (replaceAll pat.data rep.data s.data)

/-- `s.replace(',', '')`: drop every comma. -/
def stripCommas (s : String) : String :=
  pyReplace s "," ""

/-- Python `s.split(' ')[0]`: the characters before the first space. -/
def beforeSpace (s : String) : String :=
  String.mk (s.data.takeWhile (fun c => c ≠ ' '))

/-- Python `len(s)` (number of characters). -/
def pyLen (s : String) : Nat :=
  s.data.length

/-- Truthiness of `re.match(r'[\d,]+\.?\d*', s)`: the regex can match a
prefix exactly when the first character is an ASCII digit or a comma. -/
def matchesNumRegex (s : String) : Bool :=
  match s.data with
  | [] => false
  | c :: _ => c.isDigit || c = ','

/-- Truthiness of `re.match(r'\d{4}-\d{2}-\d{2}', s)`: the string begins
with `dddd-dd-dd` for ASCII digits `d`. -/
def matchesIsoRegex (s : String) : Bool :=
  match s.data with
  | a :: b :: c :: d :: '-' :: e :: f :: '-' :: g :: h :: _ =>
    a.isDigit && b.isDigit && c.isDigit && d.isDigit &&
      e.isDigit && f.isDigit && g.isDigit && h.isDigit
  | _ => false

/-- Python `' '.join(row)`. -/
def joinSpace : List String → String
  | [] => ""
  | [x] => x
  | x :: xs => x ++ " " ++ joinSpace xs

/-! ### A model of CPython `float(str)` -/

/-- An exact (unnormalized) rational `num / den`; every constructor below
keeps `den` a positive power of ten, so comparisons may cross-multiply.
Kept unnormalized so that the kernel can evaluate the engine on concrete
grids (ℚ normalization is not kernel-reducible). -/
structure PyRat where
  num : Int
  den : Nat
deriving Repr, DecidableEq

/-- The rational value represented. -/
def PyRat.toRat (q : PyRat) : ℚ := (q.num : ℚ) / (q.den : ℚ)

/-- Result of a successful Python `float` conversion: an exact rational,
an infinity, or a NaN. -/
inductive PyNum where
  | finite (q : PyRat)
  | inf (neg : Bool)
  | nan
deriving Repr, DecidableEq

/-- Binary exponentiation (square-and-multiply), kept logarithmic in the
exponent so the kernel can evaluate large powers; the fuel argument is at
least `log2 n + 1` whenever it is at least `n`. -/
def binPowAux (b n : Nat) : Nat → Nat
  | 0 => 1
  | fuel + 1 =>
    if n = 0 then 1
    else
      let h := binPowAux (b * b) (n / 2) fuel
      if n % 2 = 1 then b * h else h

/-- `b ^ n` via binary exponentiation. -/
def binPow (b n : Nat) : Nat := binPowAux b n n

/-- `binPow` agrees with `Nat.pow`. -/
theorem binPowAux_eq (b n fuel : Nat) (h : n ≤ fuel) : binPowAux b n fuel = b ^ n := by
  induction fuel generalizing b n with
  | zero =>
    have hn : n = 0 := by omega
    subst hn
    simp [binPowAux]
  | succ fuel ih =>
    rw [binPowAux]
    by_cases hn : n = 0
    · simp [hn]
    · simp only [hn, if_false]
      rw [ih (b * b) (n / 2) (by omega)]
      have key : (b * b) ^ (n / 2) = b ^ (n / 2 + n / 2) := by
        rw [pow_add, mul_pow]
      by_cases hp : n % 2 = 1
      · rw [if_pos hp, key, ← pow_succ']
        congr 1
        omega
      · rw [if_neg hp, key]
        congr 1
        omega

/-- `binPow` agrees with `Nat.pow`. -/
theorem binPow_eq (b n : Nat) : binPow b n = b ^ n :=
  binPowAux_eq b n n le_rfl

/-- The binary64 overflow threshold: exact magnitudes at or above
`2^1024 - 2^970` round to infinity under round-to-nearest-even. -/
def ovfThreshold : Int := ((binPow 2 1024 : Nat) : Int) - ((binPow 2 970 : Nat) : Int)

/-- Classify an exact nonnegative parsed magnitude, applying overflow
(`q ≥ threshold` via cross-multiplication, `den` being positive). -/
def mkFinite (q : PyRat) : PyNum :=
  if ovfThreshold * (q.den : Int) ≤ q.num then PyNum.inf false else PyNum.finite q

/-- Negate a Python float value. -/
def PyNum.negate : PyNum → PyNum
  | PyNum.finite q => PyNum.finite ⟨-q.num, q.den⟩
  | PyNum.inf b => PyNum.inf (!b)
  | PyNum.nan => PyNum.nan

/-- Is the value strictly greater than the integer bound `t`? `nan > t`
is false in Python, `+inf > t` is true, `-inf > t` is false. -/
def PyNum.gtInt : PyNum → Int → Bool
  | PyNum.finite q, t => t * (q.den : Int) < q.num
  | PyNum.inf b, _ => !b
  | PyNum.nan, _ => false

/-- Is the value finite (not an infinity, not a NaN)? -/
def PyNum.isFinite : PyNum → Bool
  | PyNum.finite _ => true
  | _ => false

/-- Consume a Python `digitpart`: digits optionally separated by single
underscores placed between digits. Returns the accumulated value, the
number of digits consumed, and the remaining characters. -/
def digitsLoop : Nat → Nat → List Char → Nat × Nat × List Char
  | acc, cnt, [] => (acc, cnt, [])
  | acc, cnt, [c] =>
    if c.isDigit then (10 * acc + (c.toNat - 48), cnt + 1, []) else (acc, cnt, [c])
  | acc, cnt, c :: d :: cs =>
    if c.isDigit then
      digitsLoop (10 * acc + (c.toNat - 48)) (cnt + 1) (d :: cs)
    else if c = '_' && d.isDigit then
      digitsLoop (10 * acc + (d.toNat - 48)) (cnt + 1) cs
    else
      (acc, cnt, c :: d :: cs)

/-- Parse a `digitpart` that must start with a digit; `none` otherwise. -/
def parseDigitPart (l : List Char) : Option (Nat × Nat × List Char) :=
  match l with
  | c :: _ =>
    if c.isDigit then
      let r := digitsLoop 0 0 l
      some r
    else none
  | [] => none

/-- Parse the mantissa `digitpart [. [digitpart]] | . digitpart` of a
Python float literal, returning its exact rational value. -/
def parseMantissa (l : List Char) : Option (PyRat × List Char) :=
  match parseDigitPart l with
  | some (ip, _, rest) =>
    match rest with
    | '.' :: rest2 =>
      match parseDigitPart rest2 with
      | some (fp, fc, rest3) =>
        some (⟨(ip : Int) * (binPow 10 fc : Nat) + (fp : Int), binPow 10 fc⟩, rest3)
      | none => some (⟨(ip : Int), 1⟩, rest2)
    | _ => some (⟨(ip : Int), 1⟩, rest)
  | none =>
    match l with
    | '.' :: rest2 =>
      match parseDigitPart rest2 with
      | some (fp, fc, rest3) => some (⟨(fp : Int), binPow 10 fc⟩, rest3)
      | none => none
    | _ => none

/-- Parse an optional exponent `[eE][+-]?digitpart`. -/
def parseExponent : List Char → Option (Int × List Char)
  | [] => some (0, [])
  | c :: rest =>
    if c = 'e' || c = 'E' then
      let signAndRest : Int × List Char :=
        match rest with
        | '+' :: r => (1, r)
        | '-' :: r => (-1, r)
        | r => (1, r)
      match parseDigitPart signAndRest.2 with
      | some (e, _, rest3) => some (signAndRest.1 * (e : Int), rest3)
      | none => none
    else
      some (0, c :: rest)

/-- Scale a rational by a signed power of ten. -/
def scalePow10 (q : PyRat) (e : Int) : PyRat :=
  if 0 ≤ e then ⟨q.num * (binPow 10 e.toNat : Nat), q.den⟩
  else ⟨q.num, q.den * binPow 10 (-e).toNat⟩

/-- Parse an unsigned Python float body (after whitespace and sign). -/
def parseUnsigned (l : List Char) : Option PyNum :=
  let lower := l.map Char.toLower
  if lower = "inf".data || lower = "infinity".data then some (PyNum.inf false)
  else if lower = "nan".data then some PyNum.nan
  else
    match parseMantissa l with
    | some (q, rest) =>
      match parseExponent rest with
      | some (e, []) => some (mkFinite (scalePow10 q e))
      | _ => none
    | none => none

/-- CPython `float(s)` on a string: `none` means `ValueError`. -/
def pyFloat? (s : String) : Option PyNum :=
  let l := ((s.data.dropWhile isPySpace).reverse.dropWhile isPySpace).reverse
  match l with
  | '+' :: rest => parseUnsigned rest
  | '-' :: rest => (parseUnsigned rest).map PyNum.negate
  | rest => parseUnsigned rest

/-! ### The InvoiceRecord and the Field Locator Engine -/

/-- The per-file result dictionary built by `extract_invoice_data`. -/
structure InvoiceRecord where
  file_name : String
  sheet_name : String
  invoice_number : String
  invoice_date : String
  company_name : String
  vendor_code : String
  po_number : String
  po_date : String
  gstin : String
  total_value : String
  gross_total_after_tax : String
  extraction_status : String
deriving Repr, DecidableEq

/-- The initial result dictionary (lines 35-48 of `testingv2.py`). -/
def initRecord (fileName targetSheet : String) : InvoiceRecord :=
  { file_name := fileName
    sheet_name := targetSheet
    invoice_number := ""
    invoice_date := ""
    company_name := ""
    vendor_code := ""
    po_number := ""
    po_date := ""
    gstin := ""
    total_value := ""
    gross_total_after_tax := ""
    extraction_status := "Success" }

/-- The dictionary returned by the `except` branch (lines 166-180). -/
def errorRecord (fileName msg : String) : InvoiceRecord :=
  { file_name := fileName
    sheet_name := "Error"
    invoice_number := ""
    invoice_date := ""
    company_name := ""
    vendor_code := ""
    po_number := ""
    po_date := ""
    gstin := ""
    total_value := ""
    gross_total_after_tax := ""
    extraction_status := "Error: " ++ msg }

/-- The cells scanned to the right of a label cell:
`range(col_idx + 1, min(len(row_values), col_idx + 4))`, each stripped. -/
def adjacentCells (row : List String) (colIdx : Nat) : List String :=
  ((row.drop (colIdx + 1)).take 3).map pyStrip

/-- Lines 77-84 / 93: does a stripped neighbour qualify as a numeric
candidate (regex prefix, length > 2, `float` conversion succeeds)? -/
def isNumericCandidate (v : String) : Bool :=
  matchesNumRegex v && pyLen v > 2 && (pyFloat? (stripCommas v)).isSome

/-- Lines 93-97: a total candidate additionally needs value > 100. -/
def isTotalCandidate (v : String) : Bool :=
  matchesNumRegex v && pyLen v > 2 &&
    (match pyFloat? (stripCommas v) with
    | some n => n.gtInt 100
    | none => false)

/-- The prioritized keyword list of line 87. -/
def totalKeywords : List String :=
  ["TOTAL VALUE", "TOTAL AMOUNT", "TOTAL", "AMOUNT", "VALUE"]

/-- Lines 88-89: some keyword occurs in the uppercased cell and `GROSS`
does not. -/
def keywordHit (cellUpper : String) : Bool :=
  totalKeywords.any (fun k => strContains cellUpper k && !strContains cellUpper "GROSS")

/-- The stripped cell examined at one column: `str(row_values[i]).strip()`. -/
def rowCell (row : List String) (colIdx : Nat) : String :=
  pyStrip (row.getD colIdx "")

/-- Lines 72-84: the GROSS TOTAL AFTER ... TAX label heuristic for one
cell. Commits the first qualifying neighbour unconditionally. -/
def grossStep (r : InvoiceRecord) (row : List String) (colIdx : Nat) : InvoiceRecord :=
  if strContains (pyUpper (rowCell row colIdx)) "GROSS TOTAL AFTER" &&
      strContains (pyUpper (rowCell row colIdx)) "TAX" then
    match (adjacentCells row colIdx).find? isNumericCandidate with
    | some v => { r with gross_total_after_tax := v }
    | none => r
  else r

/-- Lines 86-103: the generic TOTAL/AMOUNT/VALUE keyword heuristic for one
cell. Commits only while `total_value` is still empty. -/
def keywordStep (r : InvoiceRecord) (row : List String) (colIdx : Nat) : InvoiceRecord :=
  if keywordHit (pyUpper (rowCell row colIdx)) && r.total_value = "" then
    match (adjacentCells row colIdx).find? isTotalCandidate with
    | some v => { r with total_value := v }
    | none => r
  else r

/-- Lines 113-119 of the fallback: row-level keyword context decides the
target field once the cell's numeric value exceeded the noise threshold. -/
def fallbackCommit (r : InvoiceRecord) (row : List String) (cell : String) : InvoiceRecord :=
  if strContains (pyUpper (joinSpace row)) "GROSS" &&
      strContains (pyUpper (joinSpace row)) "TOTAL" &&
      r.gross_total_after_tax = "" then
    { r with gross_total_after_tax := cell }
  else if (strContains (pyUpper (joinSpace row)) "TOTAL" ||
      strContains (pyUpper (joinSpace row)) "AMOUNT" ||
      strContains (pyUpper (joinSpace row)) "VALUE") && r.total_value = "" then
    { r with total_value := cell }
  else r

/-- Lines 105-122: the trailing-column fallback for one cell. -/
def fallbackStep (r : InvoiceRecord) (row : List String) (colIdx : Nat) : InvoiceRecord :=
  if colIdx + 3 ≥ row.length then
    if matchesNumRegex (rowCell row colIdx) && pyLen (rowCell row colIdx) > 2 then
      match pyFloat? (stripCommas (rowCell row colIdx)) with
      | some n =>
        if n.gtInt 100 then fallbackCommit r row (rowCell row colIdx) else r
      | none => r
    else r
  else r

/-- One iteration of the `for col_idx, cell_value in enumerate(row_values)`
loop (lines 69-122): gross label, then keyword totals, then fallback. -/
def processCell (r : InvoiceRecord) (row : List String) (colIdx : Nat) : InvoiceRecord :=
  fallbackStep (keywordStep (grossStep r row colIdx) row colIdx) row colIdx

/-- Lines 60-61: `'SSH' in cell_value and '/' in cell_value` commits the
(stripped) column-5 cell as `invoice_number`, unconditionally. -/
def invoiceNumberStep (r : InvoiceRecord) (row : List String) : InvoiceRecord :=
  if strContains (rowCell row 5) "SSH" && strContains (rowCell row 5) "/" then
    { r with invoice_number := rowCell row 5 }
  else r

/-- Lines 64-66: an ISO date prefix in column 5 commits the part before
the first space as `invoice_date`, only while `invoice_date` is empty. -/
def invoiceDateStep (r : InvoiceRecord) (row : List String) : InvoiceRecord :=
  if matchesIsoRegex (rowCell row 5) then
    if r.invoice_date = "" then
      { r with invoice_date := beforeSpace (rowCell row 5) }
    else r
  else r

/-- Lines 57-66: invoice number (SSH pattern) and invoice date in column 5,
both guarded by `len(row_values) > 5`. -/
def invoiceColumnStep (r : InvoiceRecord) (row : List String) : InvoiceRecord :=
  if row.length > 5 then invoiceDateStep (invoiceNumberStep r row) row else r

/-- One iteration of the row loop (lines 54-122). -/
def processRow (r : InvoiceRecord) (row : List String) : InvoiceRecord :=
  (List.range row.length).foldl (fun acc i => processCell acc row i)
    (invoiceColumnStep r row)

/-- Lines 139-142: strip the `Name  :` label from the column-0 cell and
commit the trimmed remainder as `company_name` when it is non-empty. -/
def nameStep (r : InvoiceRecord) (lastRow : List String) : InvoiceRecord :=
  if pyStartsWith (rowCell lastRow 0) "Name  :" then
    if pyStrip (pyReplace (rowCell lastRow 0) "Name  :" "") ≠ "" then
      { r with company_name := pyStrip (pyReplace (rowCell lastRow 0) "Name  :" "") }
    else r
  else r

/-- Lines 145-148: strip the `GSTIN :` label from the column-0 cell and
commit the remainder as `gstin` only when longer than 10 characters. -/
def gstinStep (r : InvoiceRecord) (lastRow : List String) : InvoiceRecord :=
  if pyStartsWith (rowCell lastRow 0) "GSTIN :" then
    if pyStrip (pyReplace (rowCell lastRow 0) "GSTIN :" "") ≠ "" &&
        pyLen (pyStrip (pyReplace (rowCell lastRow 0) "GSTIN :" "")) > 10 then
      { r with gstin := pyStrip (pyReplace (rowCell lastRow 0) "GSTIN :" "") }
    else r
  else r

/-- Lines 137-148: company name, then GSTIN, both from the column-0 cell,
guarded by `len(row_values) > 0`. -/
def nameGstinStep (r : InvoiceRecord) (lastRow : List String) : InvoiceRecord :=
  if lastRow.length > 0 then gstinStep (nameStep r lastRow) lastRow else r

/-- Lines 151-162: vendor code / PO fields from the column-3 label and the
column-5 value (an `if`/`elif` chain, so at most one branch fires). -/
def vendorPoStep (r : InvoiceRecord) (lastRow : List String) : InvoiceRecord :=
  if lastRow.length > 5 then
    if lastRow.length > 3 then
      if strContains (rowCell lastRow 3) "Vendor Code" && rowCell lastRow 5 ≠ "" then
        { r with vendor_code := rowCell lastRow 5 }
      else if strContains (rowCell lastRow 3) "PO Date" && rowCell lastRow 5 ≠ "" then
        { r with po_number := rowCell lastRow 5 }
      else if strContains (rowCell lastRow 3) "Purchase Order No" && rowCell lastRow 5 ≠ "" then
        if matchesIsoRegex (rowCell lastRow 5) then
          { r with po_date := beforeSpace (rowCell lastRow 5) }
        else r
      else r
    else r
  else r

/-- Lines 126-162: the post-loop block. Because of the source's
indentation, the company-name/GSTIN block (lines 136-148) and the vendor
code / PO block (lines 150-162) sit inside
`if result['gross_total_after_tax'] and not result['total_value']:` and
read `row_values`, which after the loop still holds the last row. The
tax-estimation `try` body (lines 127-134) computes a discarded value and
has no effect on the record. -/
def postBlock (r : InvoiceRecord) (lastRow : List String) : InvoiceRecord :=
  if r.gross_total_after_tax ≠ "" && r.total_value = "" then
    vendorPoStep (nameGstinStep r lastRow) lastRow
  else r

/-- The whole scan of a grid from a given starting record: the row loop,
then the post-loop block applied with `row_values` = the last row (on an
empty grid the guard's `gross_total_after_tax` is still empty, so the
block is skipped and the leaked variable is never read). -/
def scanGrid (r : InvoiceRecord) (grid : List (List String)) : InvoiceRecord :=
  let r1 := grid.foldl processRow r
  match grid.getLast? with
  | some lastRow => postBlock r1 lastRow
  | none => r1

/-- Lines 22-29: pick the first sheet name that is not `book` and is
longer than 3 characters, else fall back to the first sheet; `none` only
for the empty list (where `sheet_names[0]` raises `IndexError`). -/
def selectSheet (sheetNames : List String) : Option String :=
  match sheetNames.find? (fun s => s ≠ "book" && pyLen s > 3) with
  | some s => some s
  | none => sheetNames.head?

/-- `extract_invoice_data`, with the fallible I/O collaborators made
explicit: `sheetNames` models reading the workbook's sheet list and
`readGrid` models materializing the chosen sheet as a text grid; an
`Except.error` on either models the exception caught at line 166. The
`IndexError` raised by `sheet_names[0]` on an empty workbook is caught by
the same handler. -/
def extract (fileName : String) (sheetNames : Except String (List String))
    (readGrid : String → Except String (List (List String))) : InvoiceRecord :=
  match sheetNames with
  | Except.error e => errorRecord fileName e
  | Except.ok names =>
    match selectSheet names with
    | none => errorRecord fileName "list index out of range"
    | some target =>
      match readGrid target with
      | Except.error e => errorRecord fileName e
      | Except.ok grid => scanGrid (initRecord fileName target) grid

/-! ### Helper lemmas -/

/-- A predicate preserved by every step of a fold is preserved by the fold. -/
theorem foldl_inv {α σ : Type _} (P : σ → Prop) (f : σ → α → σ)
    (h : ∀ s a, P s → P (f s a)) : ∀ (l : List α) (s : σ), P s → P (l.foldl f s) := by
  intro l
  induction l with
  | nil => intro s hs; exact hs
  | cons a t ih => intro s hs; exact ih _ (h s a hs)

/-- `grossStep` either leaves the record alone or writes a numeric
candidate into `gross_total_after_tax`. -/
theorem grossStep_shape (r : InvoiceRecord) (row : List String) (i : Nat) :
    grossStep r row i = r ∨
      ∃ v, isNumericCandidate v = true ∧
        grossStep r row i = { r with gross_total_after_tax := v } := by
  unfold grossStep
  split
  · cases hfind : (adjacentCells row i).find? isNumericCandidate with
    | none => exact Or.inl rfl
    | some v => exact Or.inr ⟨v, List.find?_some hfind, rfl⟩
  · exact Or.inl rfl

/-- `keywordStep` either leaves the record alone or, when `total_value`
is still empty, writes a total candidate into it. -/
theorem keywordStep_shape (r : InvoiceRecord) (row : List String) (i : Nat) :
    keywordStep r row i = r ∨
      (r.total_value = "" ∧ ∃ v, isTotalCandidate v = true ∧
        keywordStep r row i = { r with total_value := v }) := by
  unfold keywordStep
  split
  · rename_i hc
    cases hfind : (adjacentCells row i).find? isTotalCandidate with
    | none => exact Or.inl rfl
    | some v =>
      refine Or.inr ⟨?_, v, List.find?_some hfind, rfl⟩
      have h2 := (Bool.and_eq_true_iff.mp hc).2
      simpa using h2
  · exact Or.inl rfl

/-- `fallbackCommit` either leaves the record alone or fills an empty
`gross_total_after_tax` or an empty `total_value` with the given cell. -/
theorem fallbackCommit_shape (r : InvoiceRecord) (row : List String) (cell : String) :
    fallbackCommit r row cell = r ∨
      (r.gross_total_after_tax = "" ∧
        fallbackCommit r row cell = { r with gross_total_after_tax := cell }) ∨
      (r.total_value = "" ∧
        fallbackCommit r row cell = { r with total_value := cell }) := by
  unfold fallbackCommit
  split
  · rename_i hc
    refine Or.inr (Or.inl ⟨?_, rfl⟩)
    have h2 := (Bool.and_eq_true_iff.mp hc).2
    simpa using h2
  · split
    · rename_i hc
      refine Or.inr (Or.inr ⟨?_, rfl⟩)
      have h2 := (Bool.and_eq_true_iff.mp hc).2
      simpa using h2
    · exact Or.inl rfl

/-- `fallbackStep` either leaves the record alone or fills an empty
`gross_total_after_tax` or an empty `total_value` with a cell whose
comma-stripped text parses as a Python float. -/
theorem fallbackStep_shape (r : InvoiceRecord) (row : List String) (i : Nat) :
    fallbackStep r row i = r ∨
      (r.gross_total_after_tax = "" ∧ ∃ v, (pyFloat? (stripCommas v)).isSome = true ∧
        fallbackStep r row i = { r with gross_total_after_tax := v }) ∨
      (r.total_value = "" ∧ ∃ v, (pyFloat? (stripCommas v)).isSome = true ∧
        fallbackStep r row i = { r with total_value := v }) := by
  unfold fallbackStep
  split
  · split
    · rename_i hreg
      cases hpf : pyFloat? (stripCommas (rowCell row i)) with
      | none => simp [hpf]
      | some n =>
        simp only [hpf]
        split
        · rcases fallbackCommit_shape r row (rowCell row i) with h | ⟨he, h⟩ | ⟨he, h⟩
          · exact Or.inl h
          · exact Or.inr (Or.inl ⟨he, rowCell row i, by simp [hpf], h⟩)
          · exact Or.inr (Or.inr ⟨he, rowCell row i, by simp [hpf], h⟩)
        · exact Or.inl rfl
    · exact Or.inl rfl
  · exact Or.inl rfl

/-- `invoiceNumberStep` either leaves the record alone or writes the
column-5 cell into `invoice_number`. -/
theorem invoiceNumberStep_shape (r : InvoiceRecord) (row : List String) :
    invoiceNumberStep r row = r ∨
      invoiceNumberStep r row = { r with invoice_number := rowCell row 5 } := by
  unfold invoiceNumberStep
  split
  · exact Or.inr rfl
  · exact Or.inl rfl

/-- `invoiceDateStep` either leaves the record alone or fills an empty
`invoice_date` with the date part of the column-5 cell. -/
theorem invoiceDateStep_shape (r : InvoiceRecord) (row : List String) :
    invoiceDateStep r row = r ∨
      (r.invoice_date = "" ∧
        invoiceDateStep r row = { r with invoice_date := beforeSpace (rowCell row 5) }) := by
  unfold invoiceDateStep
  split
  · split
    · rename_i he
      exact Or.inr ⟨he, rfl⟩
    · exact Or.inl rfl
  · exact Or.inl rfl

/-- `nameStep` only ever writes `company_name`. -/
theorem nameStep_shape (r : InvoiceRecord) (lastRow : List String) :
    nameStep r lastRow = r ∨
      ∃ v, nameStep r lastRow = { r with company_name := v } := by
  unfold nameStep
  split
  · split
    · exact Or.inr ⟨_, rfl⟩
    · exact Or.inl rfl
  · exact Or.inl rfl

/-- `gstinStep` only ever writes `gstin`. -/
theorem gstinStep_shape (r : InvoiceRecord) (lastRow : List String) :
    gstinStep r lastRow = r ∨
      ∃ v, gstinStep r lastRow = { r with gstin := v } := by
  unfold gstinStep
  split
  · split
    · exact Or.inr ⟨_, rfl⟩
    · exact Or.inl rfl
  · exact Or.inl rfl

/-- `vendorPoStep` only ever writes `vendor_code`, `po_number` or `po_date`. -/
theorem vendorPoStep_shape (r : InvoiceRecord) (lastRow : List String) :
    vendorPoStep r lastRow = r ∨
      (∃ v, vendorPoStep r lastRow = { r with vendor_code := v }) ∨
      (∃ v, vendorPoStep r lastRow = { r with po_number := v }) ∨
      (∃ v, vendorPoStep r lastRow = { r with po_date := v }) := by
  unfold vendorPoStep
  split
  · split
    · split
      · exact Or.inr (Or.inl ⟨_, rfl⟩)
      · split
        · exact Or.inr (Or.inr (Or.inl ⟨_, rfl⟩))
        · split
          · split
            · exact Or.inr (Or.inr (Or.inr ⟨_, rfl⟩))
            · exact Or.inl rfl
          · exact Or.inl rfl
    · exact Or.inl rfl
  · exact Or.inl rfl

/-- The cell-loop body never touches any field other than `total_value`
and `gross_total_after_tax`. -/
theorem processCell_meta (r : InvoiceRecord) (row : List String) (i : Nat) :
    (processCell r row i).file_name = r.file_name ∧
    (processCell r row i).sheet_name = r.sheet_name ∧
    (processCell r row i).extraction_status = r.extraction_status ∧
    (processCell r row i).invoice_number = r.invoice_number ∧
    (processCell r row i).invoice_date = r.invoice_date ∧
    (processCell r row i).company_name = r.company_name ∧
    (processCell r row i).vendor_code = r.vendor_code ∧
    (processCell r row i).po_number = r.po_number ∧
    (processCell r row i).po_date = r.po_date ∧
    (processCell r row i).gstin = r.gstin := by
  unfold processCell
  rcases grossStep_shape r row i with h1 | ⟨v1, -, h1⟩ <;>
    rcases keywordStep_shape (grossStep r row i) row i with h2 | ⟨-, v2, -, h2⟩ <;>
    rcases fallbackStep_shape (keywordStep (grossStep r row i) row i) row i with
      h3 | ⟨-, v3, -, h3⟩ | ⟨-, v3, -, h3⟩ <;>
    rw [h3, h2, h1] <;> simp

/-- `postBlock` never touches the file/sheet/status fields, the invoice
fields, or the two numeric fields. -/
theorem postBlock_meta (r : InvoiceRecord) (lastRow : List String) :
    (postBlock r lastRow).file_name = r.file_name ∧
    (postBlock r lastRow).sheet_name = r.sheet_name ∧
    (postBlock r lastRow).extraction_status = r.extraction_status ∧
    (postBlock r lastRow).invoice_number = r.invoice_number ∧
    (postBlock r lastRow).invoice_date = r.invoice_date ∧
    (postBlock r lastRow).total_value = r.total_value ∧
    (postBlock r lastRow).gross_total_after_tax = r.gross_total_after_tax := by
  unfold postBlock nameGstinStep
  split
  · split
    · rcases nameStep_shape r lastRow with h1 | ⟨v1, h1⟩ <;>
        rcases gstinStep_shape (nameStep r lastRow) lastRow with h2 | ⟨v2, h2⟩ <;>
        rcases vendorPoStep_shape (gstinStep (nameStep r lastRow) lastRow) lastRow with
          h3 | ⟨v3, h3⟩ | ⟨v3, h3⟩ | ⟨v3, h3⟩ <;>
        rw [h3, h2, h1] <;> simp
    · rcases vendorPoStep_shape r lastRow with h3 | ⟨v3, h3⟩ | ⟨v3, h3⟩ | ⟨v3, h3⟩ <;>
        rw [h3] <;> simp
  · simp

/-- The column-5 invoice heuristics never touch any field other than
`invoice_number` and `invoice_date`. -/
theorem invoiceColumnStep_meta (r : InvoiceRecord) (row : List String) :
    (invoiceColumnStep r row).file_name = r.file_name ∧
    (invoiceColumnStep r row).sheet_name = r.sheet_name ∧
    (invoiceColumnStep r row).extraction_status = r.extraction_status ∧
    (invoiceColumnStep r row).total_value = r.total_value ∧
    (invoiceColumnStep r row).gross_total_after_tax = r.gross_total_after_tax := by
  unfold invoiceColumnStep
  split
  · rcases invoiceNumberStep_shape r row with h1 | h1 <;>
      rcases invoiceDateStep_shape (invoiceNumberStep r row) row with h2 | ⟨-, h2⟩ <;>
      rw [h2, h1] <;> simp
  · simp

/-- One row of the scan never touches the file/sheet/status fields. -/
theorem processRow_meta (r : InvoiceRecord) (row : List String) :
    (processRow r row).file_name = r.file_name ∧
    (processRow r row).sheet_name = r.sheet_name ∧
    (processRow r row).extraction_status = r.extraction_status := by
  unfold processRow
  refine foldl_inv
    (fun s => s.file_name = r.file_name ∧ s.sheet_name = r.sheet_name ∧
      s.extraction_status = r.extraction_status)
    (fun acc i => processCell acc row i) ?_ _ _ ?_
  · intro s i hs
    obtain ⟨h1, h2, h3, -⟩ := processCell_meta s row i
    exact ⟨h1.trans hs.1, h2.trans hs.2.1, h3.trans hs.2.2⟩
  · obtain ⟨h1, h2, h3, -⟩ := invoiceColumnStep_meta r row
    exact ⟨h1, h2, h3⟩

/-- The whole scan never touches the file/sheet/status fields. -/
theorem scanGrid_meta (r : InvoiceRecord) (grid : List (List String)) :
    (scanGrid r grid).file_name = r.file_name ∧
    (scanGrid r grid).sheet_name = r.sheet_name ∧
    (scanGrid r grid).extraction_status = r.extraction_status := by
  unfold scanGrid
  have hfold : (grid.foldl processRow r).file_name = r.file_name ∧
      (grid.foldl processRow r).sheet_name = r.sheet_name ∧
      (grid.foldl processRow r).extraction_status = r.extraction_status := by
    refine foldl_inv
      (fun s => s.file_name = r.file_name ∧ s.sheet_name = r.sheet_name ∧
        s.extraction_status = r.extraction_status)
      processRow ?_ _ _ ⟨rfl, rfl, rfl⟩
    intro s row hs
    obtain ⟨h1, h2, h3⟩ := processRow_meta s row
    exact ⟨h1.trans hs.1, h2.trans hs.2.1, h3.trans hs.2.2⟩
  cases hlast : grid.getLast? with
  | none => simpa [hlast] using hfold
  | some lastRow =>
    obtain ⟨p1, p2, p3, -⟩ := postBlock_meta (grid.foldl processRow r) lastRow
    simp only [hlast]
    exact ⟨p1.trans hfold.1, p2.trans hfold.2.1, p3.trans hfold.2.2⟩

/-- Once `total_value` is non-empty, no cell step changes it. -/
theorem processCell_total_mono (r : InvoiceRecord) (row : List String) (i : Nat)
    (h : r.total_value ≠ "") :
    (processCell r row i).total_value = r.total_value := by
  unfold processCell
  have hg : (grossStep r row i).total_value = r.total_value := by
    rcases grossStep_shape r row i with h1 | ⟨v1, -, h1⟩ <;> rw [h1]
  have hk : (keywordStep (grossStep r row i) row i).total_value = r.total_value := by
    rcases keywordStep_shape (grossStep r row i) row i with h2 | ⟨he, v2, -, h2⟩
    · rw [h2, hg]
    · rw [hg] at he
      exact absurd he h
  rcases fallbackStep_shape (keywordStep (grossStep r row i) row i) row i with
    h3 | ⟨-, v3, -, h3⟩ | ⟨he, v3, -, h3⟩
  · rw [h3, hk]
  · rw [h3]
    exact hk
  · rw [hk] at he
    exact absurd he h

/-- Once `total_value` is non-empty, scanning a row does not change it. -/
theorem processRow_total_mono (r : InvoiceRecord) (row : List String)
    (h : r.total_value ≠ "") :
    (processRow r row).total_value = r.total_value := by
  unfold processRow
  refine foldl_inv (fun s => s.total_value = r.total_value)
    (fun acc i => processCell acc row i) ?_ _ _ ?_
  · intro s i hs
    rw [processCell_total_mono s row i (hs ▸ h), hs]
  · exact (invoiceColumnStep_meta r row).2.2.2.1

/-- Once `total_value` is non-empty, the remaining rows do not change it. -/
theorem foldlRows_total_mono (r : InvoiceRecord) (rows : List (List String))
    (h : r.total_value ≠ "") :
    (rows.foldl processRow r).total_value = r.total_value := by
  refine foldl_inv (fun s => s.total_value = r.total_value) processRow ?_ _ _ rfl
  intro s row hs
  rw [processRow_total_mono s row (hs ▸ h), hs]

/-- Once `invoice_date` is non-empty, the column-5 step does not change it. -/
theorem invoiceColumnStep_date_mono (r : InvoiceRecord) (row : List String)
    (h : r.invoice_date ≠ "") :
    (invoiceColumnStep r row).invoice_date = r.invoice_date := by
  unfold invoiceColumnStep
  split
  · have hn : (invoiceNumberStep r row).invoice_date = r.invoice_date := by
      rcases invoiceNumberStep_shape r row with h1 | h1 <;> rw [h1]
    rcases invoiceDateStep_shape (invoiceNumberStep r row) row with h2 | ⟨he, h2⟩
    · rw [h2, hn]
    · rw [hn] at he
      exact absurd he h
  · rfl

/-- Once `invoice_date` is non-empty, scanning a row does not change it. -/
theorem processRow_date_mono (r : InvoiceRecord) (row : List String)
    (h : r.invoice_date ≠ "") :
    (processRow r row).invoice_date = r.invoice_date := by
  unfold processRow
  refine foldl_inv (fun s => s.invoice_date = r.invoice_date)
    (fun acc i => processCell acc row i) ?_ _ _ ?_
  · intro s i hs
    rw [(processCell_meta s row i).2.2.2.2.1, hs]
  · exact invoiceColumnStep_date_mono r row h

/-- Once `invoice_date` is non-empty, the remaining rows do not change it. -/
theorem foldlRows_date_mono (r : InvoiceRecord) (rows : List (List String))
    (h : r.invoice_date ≠ "") :
    (rows.foldl processRow r).invoice_date = r.invoice_date := by
  refine foldl_inv (fun s => s.invoice_date = r.invoice_date) processRow ?_ _ _ rfl
  intro s row hs
  rw [processRow_date_mono s row (hs ▸ h), hs]

/-- Both numeric fields, when non-empty, hold a string whose comma-stripped
text parses as a Python float. -/
def committedTotalsParse (r : InvoiceRecord) : Prop :=
  (r.total_value ≠ "" → (pyFloat? (stripCommas r.total_value)).isSome = true) ∧
  (r.gross_total_after_tax ≠ "" →
    (pyFloat? (stripCommas r.gross_total_after_tax)).isSome = true)

/-- A gross-label candidate's comma-stripped text parses as a float. -/
theorem isNumericCandidate_parses (v : String) (h : isNumericCandidate v = true) :
    (pyFloat? (stripCommas v)).isSome = true := by
  simp only [isNumericCandidate, Bool.and_eq_true] at h
  exact h.2

/-- A keyword-path candidate's comma-stripped text parses as a float. -/
theorem isTotalCandidate_parses (v : String) (h : isTotalCandidate v = true) :
    (pyFloat? (stripCommas v)).isSome = true := by
  simp only [isTotalCandidate, Bool.and_eq_true] at h
  rcases h with ⟨-, h⟩
  cases heq : pyFloat? (stripCommas v) with
  | none => rw [heq] at h; simp at h
  | some n => simp

/-- The cell-loop body preserves the parse invariant. -/
theorem processCell_parse (s : InvoiceRecord) (row : List String) (i : Nat)
    (h : committedTotalsParse s) : committedTotalsParse (processCell s row i) := by
  unfold processCell
  have hg : committedTotalsParse (grossStep s row i) := by
    rcases grossStep_shape s row i with h1 | ⟨v1, hv1, h1⟩ <;> rw [h1]
    · exact h
    · exact ⟨h.1, fun _ => isNumericCandidate_parses v1 hv1⟩
  have hk : committedTotalsParse (keywordStep (grossStep s row i) row i) := by
    rcases keywordStep_shape (grossStep s row i) row i with h2 | ⟨-, v2, hv2, h2⟩ <;> rw [h2]
    · exact hg
    · exact ⟨fun _ => isTotalCandidate_parses v2 hv2, hg.2⟩
  rcases fallbackStep_shape (keywordStep (grossStep s row i) row i) row i with
    h3 | ⟨-, v3, hv3, h3⟩ | ⟨-, v3, hv3, h3⟩ <;> rw [h3]
  · exact hk
  · exact ⟨hk.1, fun _ => hv3⟩
  · exact ⟨fun _ => hv3, hk.2⟩

/-- One row of the scan preserves the parse invariant. -/
theorem processRow_parse (s : InvoiceRecord) (row : List String)
    (h : committedTotalsParse s) : committedTotalsParse (processRow s row) := by
  unfold processRow
  refine foldl_inv committedTotalsParse (fun acc i => processCell acc row i) ?_ _ _ ?_
  · intro t i ht
    exact processCell_parse t row i ht
  · obtain ⟨-, -, -, h4, h5⟩ := invoiceColumnStep_meta s row
    exact ⟨h4 ▸ h.1, h5 ▸ h.2⟩

/-- The whole scan preserves the parse invariant. -/
theorem scanGrid_parse (r : InvoiceRecord) (grid : List (List String))
    (h : committedTotalsParse r) : committedTotalsParse (scanGrid r grid) := by
  unfold scanGrid
  have hfold : committedTotalsParse (grid.foldl processRow r) :=
    foldl_inv committedTotalsParse processRow
      (fun s row hs => processRow_parse s row hs) grid r h
  cases hlast : grid.getLast? with
  | none => simpa using hfold
  | some lastRow =>
    obtain ⟨-, -, -, -, -, p6, p7⟩ := postBlock_meta (grid.foldl processRow r) lastRow
    simp only
    exact ⟨p6 ▸ hfold.1, p7 ▸ hfold.2⟩

/-- Once `total_value` is non-empty, the rest of the scan does not change it. -/
theorem scanGrid_total_mono (r : InvoiceRecord) (grid : List (List String))
    (h : r.total_value ≠ "") :
    (scanGrid r grid).total_value = r.total_value := by
  unfold scanGrid
  have hfold := foldlRows_total_mono r grid h
  cases hlast : grid.getLast? with
  | none => simpa using hfold
  | some lastRow =>
    obtain ⟨-, -, -, -, -, p6, -⟩ := postBlock_meta (grid.foldl processRow r) lastRow
    simp only
    exact p6.trans hfold

/-- Once `invoice_date` is non-empty, the rest of the scan does not change it. -/
theorem scanGrid_date_mono (r : InvoiceRecord) (grid : List (List String))
    (h : r.invoice_date ≠ "") :
    (scanGrid r grid).invoice_date = r.invoice_date := by
  unfold scanGrid
  have hfold := foldlRows_date_mono r grid h
  cases hlast : grid.getLast? with
  | none => simpa using hfold
  | some lastRow =>
    obtain ⟨-, -, -, -, p5, -⟩ := postBlock_meta (grid.foldl processRow r) lastRow
    simp only
    exact p5.trans hfold

/-- The fold over the cells of a row keeps `invoice_number` unchanged. -/
theorem processRow_number_eq (r : InvoiceRecord) (row : List String) :
    (processRow r row).invoice_number = (invoiceColumnStep r row).invoice_number := by
  unfold processRow
  exact foldl_inv (fun s => s.invoice_number = (invoiceColumnStep r row).invoice_number)
    (fun acc i => processCell acc row i)
    (fun s i hs => ((processCell_meta s row i).2.2.2.1).trans hs) _ _ rfl

/-- The fold over the cells of a row keeps `invoice_date` unchanged. -/
theorem processRow_date_eq (r : InvoiceRecord) (row : List String) :
    (processRow r row).invoice_date = (invoiceColumnStep r row).invoice_date := by
  unfold processRow
  exact foldl_inv (fun s => s.invoice_date = (invoiceColumnStep r row).invoice_date)
    (fun acc i => processCell acc row i)
    (fun s i hs => ((processCell_meta s row i).2.2.2.2.1).trans hs) _ _ rfl

end InvoiceExtract

set_option maxRecDepth 8000

/-! ### Claims -/

namespace InvoiceExtract

/-- C1 (counterexample): the claim that every text field — including
`invoice_number` — is set at most once, the earlier candidate winning, is
false: line 61 assigns `invoice_number` unconditionally, so of two SSH
candidates the LATER one is committed. -/
theorem C1_counterexample :
    (scanGrid (initRecord "inv.xlsx" "Sheet2024")
        [["", "", "", "", "", "SSH/001"], ["", "", "", "", "", "SSH/002"]]).invoice_number
      = "SSH/002" ∧ ("SSH/002" : String) ≠ "SSH/001" := by
  decide

/-- C1 (amended): only `total_value` and `invoice_date` are first-match
fields: once non-empty they are never changed by the rest of the scan;
`invoice_number` (and `gross_total_after_tax` via its label path) are
overwritten by later qualifying candidates. -/
theorem C1_amended_first_match_fields (r : InvoiceRecord) (grid : List (List String)) :
    (r.invoice_date ≠ "" → (scanGrid r grid).invoice_date = r.invoice_date) ∧
    (r.total_value ≠ "" → (scanGrid r grid).total_value = r.total_value) := by
  exact ⟨fun h => scanGrid_date_mono r grid h, fun h => scanGrid_total_mono r grid h⟩

/-- C1 (witness): a record whose `invoice_date` and `total_value` are
already set keeps both through a grid that offers fresh candidates. -/
theorem C1_amended_first_match_fields_witness :
    (scanGrid
        { initRecord "inv.xlsx" "Sheet2024" with
            invoice_date := "2024-01-01", total_value := "999" }
        [["", "", "", "", "", "2025-05-05 10:00:00"], ["TOTAL", "500"]]).invoice_date
      = "2024-01-01" ∧
    (scanGrid
        { initRecord "inv.xlsx" "Sheet2024" with
            invoice_date := "2024-01-01", total_value := "999" }
        [["", "", "", "", "", "2025-05-05 10:00:00"], ["TOTAL", "500"]]).total_value
      = "999" :=
  ⟨(C1_amended_first_match_fields _ _).1 (by decide),
    (C1_amended_first_match_fields _ _).2 (by decide)⟩

/-- C2: the company-name/GSTIN rule does not run per row: because of the
indentation of lines 136-148 it sits inside the post-loop
`if result['gross_total_after_tax'] and not result['total_value']:` block
and examines only the leaked last row, so the spec's own scenario — a grid
whose only labeled cell is `Name  :ACME INDUSTRIES` — yields an empty
`company_name` even though the cell carries the label. -/
theorem C2_company_name_not_committed :
    (scanGrid (initRecord "inv.xlsx" "SheetA")
        [["Name  :ACME INDUSTRIES"]]).company_name = "" ∧
    ("" : String) ≠ "ACME INDUSTRIES" ∧
    pyStartsWith "Name  :ACME INDUSTRIES" "Name  :" = true := by
  decide

/-- C3: the vendor-code rule likewise does not run per row (lines 150-162
sit in the same mis-indented post-loop block), so the spec's scenario row
`["", "", "", "Vendor Code", "", "VC-102"]` yields an empty `vendor_code`. -/
theorem C3_vendor_code_not_committed :
    (scanGrid (initRecord "inv.xlsx" "SheetA")
        [["", "", "", "Vendor Code", "", "VC-102"]]).vendor_code = "" ∧
    ("" : String) ≠ "VC-102" := by
  decide

/-- C4 (counterexample): a row `["GROSS TOTAL AFTER TAX", "123456.00"]`
commits the value to `gross_total_after_tax` AND to `total_value`: the
trailing-column fallback runs on the numeric cell after the label path has
filled `gross_total_after_tax`, its gross branch is then disabled, and its
generic branch commits `total_value` from the same row. -/
theorem C4_counterexample :
    (scanGrid (initRecord "inv.xlsx" "SheetA")
        [["GROSS TOTAL AFTER TAX", "123456.00"]]).gross_total_after_tax = "123456.00" ∧
    (scanGrid (initRecord "inv.xlsx" "SheetA")
        [["GROSS TOTAL AFTER TAX", "123456.00"]]).total_value = "123456.00" := by
  decide

/-- C4 (amended): the gross/generic separation holds for the label-based
keyword pass — a cell whose text contains the gross marker never commits
`total_value` through it (the pass is a no-op on such a cell); the
trailing-column fallback, however, may commit the same gross-labeled
row's numeric cell to `total_value` once `gross_total_after_tax` is set. -/
theorem C4_amended_keyword_pass_skips_gross (r : InvoiceRecord) (row : List String)
    (i : Nat) (h : strContains (pyUpper (rowCell row i)) "GROSS" = true) :
    keywordStep r row i = r := by
  have hhit : keywordHit (pyUpper (rowCell row i)) = false := by
    simp [keywordHit, totalKeywords, h]
  unfold keywordStep
  rw [hhit]
  simp

/-- C4 (witness): the keyword pass leaves the record unchanged on the
gross-labeled cell of the counterexample row. -/
theorem C4_amended_keyword_pass_skips_gross_witness :
    keywordStep (initRecord "inv.xlsx" "SheetA") ["GROSS TOTAL AFTER TAX", "123456.00"] 0
      = initRecord "inv.xlsx" "SheetA" :=
  C4_amended_keyword_pass_skips_gross _ _ _ (by decide)

/-- C5 (counterexample): the label-based and fallback heuristics are not
two row-level passes: in `["200", "TOTAL", "5000"]` the fallback fires on
column 0 before the label-based scan of the `TOTAL` cell is reached, and
`total_value` becomes `200` although the label-based candidate `5000`
exists in the same row. -/
theorem C5_counterexample :
    (scanGrid (initRecord "inv.xlsx" "SheetA")
        [["200", "TOTAL", "5000"]]).total_value = "200" ∧
    isTotalCandidate "5000" = true ∧ ("200" : String) ≠ "5000" := by
  decide

/-- C5 (amended): the two heuristics are interleaved cell by cell (within
one cell the label paths run first, the fallback last), so a fallback hit
in an earlier column can pre-empt a label-based candidate later in the
same row; the fallback never overwrites an already-committed
`gross_total_after_tax` or `total_value`. -/
theorem C5_amended_fallback_never_overrides (r : InvoiceRecord) (row : List String)
    (i : Nat) :
    (r.total_value ≠ "" → (fallbackStep r row i).total_value = r.total_value) ∧
    (r.gross_total_after_tax ≠ "" →
      (fallbackStep r row i).gross_total_after_tax = r.gross_total_after_tax) := by
  constructor
  · intro h
    rcases fallbackStep_shape r row i with h3 | ⟨-, v, -, h3⟩ | ⟨he, v, -, h3⟩ <;> rw [h3]
    exact absurd he h
  · intro h
    rcases fallbackStep_shape r row i with h3 | ⟨he, v, -, h3⟩ | ⟨-, v, -, h3⟩ <;> rw [h3]
    exact absurd he h

/-- C5 (witness): a record with both totals already set keeps them through
a fallback step on a qualifying trailing numeric cell. -/
theorem C5_amended_fallback_never_overrides_witness :
    (fallbackStep
        { initRecord "inv.xlsx" "SheetA" with
            total_value := "700", gross_total_after_tax := "800" }
        ["GROSS TOTAL", "900"] 1).total_value = "700" ∧
    (fallbackStep
        { initRecord "inv.xlsx" "SheetA" with
            total_value := "700", gross_total_after_tax := "800" }
        ["GROSS TOTAL", "900"] 1).gross_total_after_tax = "800" :=
  ⟨(C5_amended_fallback_never_overrides _ _ _).1 (by decide),
    (C5_amended_fallback_never_overrides _ _ _).2 (by decide)⟩

/-- C6 (counterexample): on a scan failure the sheet identity is NOT
preserved: even when the sheet list was read and `Data2024` was selected,
a failure while materializing the grid yields a record whose sheet field
is the literal `Error`. -/
theorem C6_counterexample :
    (extract "inv.xlsx" (Except.ok ["Data2024"])
        (fun _ => Except.error "boom")).sheet_name = "Error" ∧
    selectSheet ["Data2024"] = some "Data2024" ∧
    ("Error" : String) ≠ "Data2024" ∧
    (extract "inv.xlsx" (Except.ok ["Data2024"])
        (fun _ => Except.error "boom")).extraction_status = "Error: boom" := by
  decide

/-- C6 (amended): whenever extraction does not succeed, the record has
every extracted field empty, the file identity preserved, the sheet field
set to the literal `Error` (not the selected sheet), and a status of the
form `Error: <message>`; no partially populated record crosses the
failure boundary. -/
theorem C6_amended_error_record (fn : String) (ns : Except String (List String))
    (rg : String → Except String (List (List String)))
    (h : (extract fn ns rg).extraction_status ≠ "Success") :
    (extract fn ns rg).invoice_number = "" ∧
    (extract fn ns rg).invoice_date = "" ∧
    (extract fn ns rg).company_name = "" ∧
    (extract fn ns rg).vendor_code = "" ∧
    (extract fn ns rg).po_number = "" ∧
    (extract fn ns rg).po_date = "" ∧
    (extract fn ns rg).gstin = "" ∧
    (extract fn ns rg).total_value = "" ∧
    (extract fn ns rg).gross_total_after_tax = "" ∧
    (extract fn ns rg).file_name = fn ∧
    (extract fn ns rg).sheet_name = "Error" ∧
    ∃ m, (extract fn ns rg).extraction_status = "Error: " ++ m := by
  cases ns with
  | error e =>
    exact ⟨rfl, rfl, rfl, rfl, rfl, rfl, rfl, rfl, rfl, rfl, rfl, e, rfl⟩
  | ok names =>
    cases hsel : selectSheet names with
    | none =>
      have hred : extract fn (Except.ok names) rg
          = errorRecord fn "list index out of range" := by
        unfold extract
        dsimp only
        rw [hsel]
      rw [hred]
      exact ⟨rfl, rfl, rfl, rfl, rfl, rfl, rfl, rfl, rfl, rfl, rfl,
        "list index out of range", rfl⟩
    | some target =>
      cases hrg : rg target with
      | error e =>
        have hred : extract fn (Except.ok names) rg = errorRecord fn e := by
          unfold extract
          dsimp only
          rw [hsel]
          dsimp only
          rw [hrg]
        rw [hred]
        exact ⟨rfl, rfl, rfl, rfl, rfl, rfl, rfl, rfl, rfl, rfl, rfl, e, rfl⟩
      | ok grid =>
        have hred : extract fn (Except.ok names) rg
            = scanGrid (initRecord fn target) grid := by
          unfold extract
          dsimp only
          rw [hsel]
          dsimp only
          rw [hrg]
        rw [hred] at h
        exact absurd (scanGrid_meta (initRecord fn target) grid).2.2 h

/-- C6 (witness): a workbook whose sheet list cannot be read produces the
fully-empty error record. -/
theorem C6_amended_error_record_witness :
    (extract "a.xlsx" (Except.error "io fail")
        (fun _ => Except.ok [])).total_value = "" ∧
    (extract "a.xlsx" (Except.error "io fail")
        (fun _ => Except.ok [])).file_name = "a.xlsx" ∧
    (extract "a.xlsx" (Except.error "io fail")
        (fun _ => Except.ok [])).sheet_name = "Error" ∧
    ∃ m, (extract "a.xlsx" (Except.error "io fail")
        (fun _ => Except.ok [])).extraction_status = "Error: " ++ m := by
  obtain ⟨-, -, -, -, -, -, -, h8, -, h10, h11, h12⟩ :=
    C6_amended_error_record "a.xlsx" (Except.error "io fail")
      (fun _ => Except.ok []) (by decide)
  exact ⟨h8, h10, h11, h12⟩

/-- C7 (counterexample): a committed numeric value need not be finite:
`1e999` passes the regex/length gates, `float("1e999")` is an infinity in
Python (no exception), `inf > 100` holds, and the string is committed to
`total_value`. -/
theorem C7_counterexample :
    (scanGrid (initRecord "inv.xlsx" "SheetA") [["TOTAL", "1e999"]]).total_value
      = "1e999" ∧
    pyFloat? (stripCommas "1e999") = some (PyNum.inf false) ∧
    (PyNum.inf false).isFinite = false := by
  decide

/-- C7 (amended): a candidate is committed into a numeric field only if,
after removing commas, it parses as a Python float — possibly an infinite
one for overflowing literals; non-numeric candidates are silently
discarded (the status stays `Success`), and `12,345.50` and `12345.50`
parse to the same value. -/
theorem C7_amended_numeric_gate (fn sh : String) (grid : List (List String)) :
    committedTotalsParse (scanGrid (initRecord fn sh) grid) ∧
    pyFloat? (stripCommas "12,345.50") = pyFloat? (stripCommas "12345.50") ∧
    (scanGrid (initRecord fn sh) grid).extraction_status = "Success" ∧
    (scanGrid (initRecord "inv.xlsx" "SheetA") [["TOTAL", "abc"], ["TOTAL", ""]]).total_value
      = "" := by
  refine ⟨?_, by decide, ?_, by decide⟩
  · refine scanGrid_parse (initRecord fn sh) grid ⟨?_, ?_⟩ <;>
      exact fun hne => absurd rfl hne
  · exact (scanGrid_meta (initRecord fn sh) grid).2.2

/-- C7 (witness): on a grid committing `500`, the committed `total_value`
does parse. -/
theorem C7_amended_numeric_gate_witness :
    (pyFloat? (stripCommas
        (scanGrid (initRecord "inv.xlsx" "SheetA") [["TOTAL", "500"]]).total_value)).isSome
      = true :=
  (C7_amended_numeric_gate "inv.xlsx" "SheetA" [["TOTAL", "500"]]).1.1 (by decide)

/-- C8: the sheet selector returns the first name that is neither `book`
nor of length ≤ 3, falls back to the first name when none survives, and
on the empty list the selection fails and surfaces as the file-level
`IndexError` status. -/
theorem C8_sheet_selection :
    (∀ names : List String,
      selectSheet names =
        Option.orElse (names.find? (fun s => s ≠ "book" && pyLen s > 3))
          (fun _ => names.head?)) ∧
    selectSheet ["book", "Sheet1"] = some "Sheet1" ∧
    selectSheet ["book", "ab"] = some "book" ∧
    selectSheet [] = none ∧
    (∀ (fn : String) (rg : String → Except String (List (List String))),
      (extract fn (Except.ok []) rg).extraction_status
        = "Error: list index out of range") := by
  refine ⟨?_, by decide, by decide, by decide, ?_⟩
  · intro names
    unfold selectSheet
    cases h : names.find? (fun s => s ≠ "book" && pyLen s > 3) <;>
      simp [h, Option.orElse]
  · intro fn rg
    rfl

/-- C9: in any row with more than 5 columns, a column-5 cell containing
`SSH` and `/` is committed (stripped) as `invoice_number`, and a column-5
cell starting with an ISO date commits its part before the first space as
`invoice_date` while `invoice_date` is still empty. -/
theorem C9_invoice_column (r : InvoiceRecord) (row : List String)
    (h5 : row.length > 5) :
    (strContains (rowCell row 5) "SSH" = true → strContains (rowCell row 5) "/" = true →
      (processRow r row).invoice_number = rowCell row 5) ∧
    (matchesIsoRegex (rowCell row 5) = true → r.invoice_date = "" →
      (processRow r row).invoice_date = beforeSpace (rowCell row 5)) := by
  constructor
  · intro hS hSl
    rw [processRow_number_eq]
    unfold invoiceColumnStep
    rw [if_pos h5]
    have hnd : (invoiceDateStep (invoiceNumberStep r row) row).invoice_number
        = (invoiceNumberStep r row).invoice_number := by
      rcases invoiceDateStep_shape (invoiceNumberStep r row) row with h2 | ⟨-, h2⟩ <;>
        rw [h2]
    rw [hnd]
    unfold invoiceNumberStep
    rw [if_pos (by rw [hS, hSl]; rfl)]
  · intro hIso hEmpty
    rw [processRow_date_eq]
    unfold invoiceColumnStep
    rw [if_pos h5]
    have hnum_date : (invoiceNumberStep r row).invoice_date = r.invoice_date := by
      rcases invoiceNumberStep_shape r row with h1 | h1 <;> rw [h1]
    unfold invoiceDateStep
    rw [if_pos hIso, hnum_date, if_pos hEmpty]

/-- C9 (witness): a column-5 cell carrying both the SSH marker and an ISO
prefix commits both fields, and the spec's `2024-07-01 00:00:00` scenario
commits `invoice_date = 2024-07-01`. -/
theorem C9_invoice_column_witness :
    (processRow (initRecord "inv.xlsx" "SheetA")
        ["", "", "", "", "", "2024-07-01 SSH/9"]).invoice_number = "2024-07-01 SSH/9" ∧
    (processRow (initRecord "inv.xlsx" "SheetA")
        ["", "", "", "", "", "2024-07-01 SSH/9"]).invoice_date = "2024-07-01" ∧
    (processRow (initRecord "inv.xlsx" "SheetA")
        ["", "", "", "", "", "2024-07-01 00:00:00"]).invoice_date = "2024-07-01" :=
  ⟨(C9_invoice_column _ _ (by decide)).1 (by decide) (by decide),
    (C9_invoice_column _ _ (by decide)).2 (by decide) (by decide),
    (C9_invoice_column _ _ (by decide)).2 (by decide) (by decide)⟩

/-- C10: once `total_value` is non-empty, nothing in the remaining scan —
neither the keyword-adjacent path nor the trailing-column fallback nor the
post-loop block — modifies it. -/
theorem C10_total_value_write_once (r : InvoiceRecord) (grid : List (List String))
    (h : r.total_value ≠ "") :
    (scanGrid r grid).total_value = r.total_value :=
  scanGrid_total_mono r grid h

/-- C10 (witness): a record whose `total_value` is `123` keeps it through
a grid full of fresh total candidates. -/
theorem C10_total_value_write_once_witness :
    (scanGrid { initRecord "inv.xlsx" "SheetA" with total_value := "123" }
        [["TOTAL", "99999"], ["", "88888"]]).total_value = "123" :=
  C10_total_value_write_once _ _ (by decide)

end InvoiceExtract
